import Mathlib

/-!
Verification development for the `robust_downloader` crate.

Shallow embedding of the per-item download state machine and the
concurrency/retry orchestration around it:

* `src/err.rs`   — error taxonomy and Retryable/Fatal classification
  (`is_retry_error`, `into_backoff_err`);
* `src/task.rs`  — one download attempt (`DownloadTaskRunner::download`):
  resume-offset probing, open mode (truncate vs append), integrity check,
  rename with cross-device copy fallback;
* `src/lib.rs`   — `RobustDownloader`: backoff configuration, per-item retry
  loop (`download_with_retry`), semaphore-gated concurrent fan-out
  (`download` with `futures::future::try_join_all`).

Machine integers are modelled as `Nat` (sizes, HTTP status codes) and
durations as `ℚ` in milliseconds (the backoff crate computes intervals in
floating seconds; rationals represent the exact values 500 * 1.5^k without
rounding). External capabilities (HTTP transport, filesystem, digest
primitive, random jitter) enter as explicit oracle parameters.
-/

/- ### Error model: `src/err.rs` -/

/-- The stable `std::io::ErrorKind` variants relevant to the crate
(the classifier in `into_backoff_err` matches nine of them by name and
lumps the rest into the wildcard arm). -/
inductive IoErrorKind where
  | notFound
  | permissionDenied
  | connectionRefused
  | connectionReset
  | connectionAborted
  | notConnected
  | addrInUse
  | addrNotAvailable
  | brokenPipe
  | alreadyExists
  | wouldBlock
  | invalidInput
  | invalidData
  | timedOut
  | writeZero
  | interrupted
  | unsupported
  | unexpectedEof
  | outOfMemory
  | other
  | resourceBusy
  | crossesDevices
  | storageFull
  | notADirectory
  | isADirectory
  | directoryNotEmpty
  | readOnlyFilesystem
  | fileTooLarge
  | deadlock
deriving DecidableEq, Repr

/-- Abstract view of a `reqwest::Error`: the boolean kind predicates the
classifier consults, plus the optional HTTP status attached to the error.
`isBuilder` stands for malformed-URL / client-configuration errors
(`reqwest::Error::is_builder`), which the classifier never matches. -/
structure ReqwestError where
  isTimeout : Bool
  isConnect : Bool
  isRequest : Bool
  isDecode : Bool
  isBody : Bool
  isBuilder : Bool
  status : Option Nat
deriving DecidableEq, Repr

/-- `ProgressDownloadError` from `src/err.rs` (variants `Io`, `Reqwest`,
`Timeout`, `Semaphore`, `Path`, `IntegrityHash`). The payloads of `Io` and
`Reqwest` are reduced to what the classifier inspects; `Timeout` and
`Semaphore` payloads are never inspected and are dropped. -/
inductive ProgressDownloadError where
  | io (kind : IoErrorKind)
  | reqwest (e : ReqwestError)
  | timeout
  | semaphore
  | path (path : String)
  | integrityHash (expect actual : String)
deriving DecidableEq, Repr

/-- `backoff::Error<E>`: `transient` errors are retried, `permanent` errors
abort the retry loop. -/
inductive BackoffError (ε : Type) where
  | transient (e : ε)
  | permanent (e : ε)
deriving DecidableEq, Repr

/-- `reqwest::StatusCode::is_server_error` — 500 ≤ s ≤ 599. -/
def isServerError (s : Nat) : Bool :=
  500 ≤ s && s < 600

/-- `ProgressDownloadError::is_retry_error` (src/err.rs lines 25–44).
In the source this is a method whose `self` is unused; it is a pure
predicate on the `reqwest::Error`. -/
def is_retry_error (e : ReqwestError) : Bool :=
  e.isTimeout ||
  e.isConnect ||
  e.isRequest ||
  (match e.status with
   | some s => isServerError s
   | none => false) ||
  (match e.status with
   | some s => s == 408 || s == 425 || s == 429 || s == 449
   | none => false) ||
  e.isDecode ||
  e.isBody

/-- `ProgressDownloadError::into_backoff_err` (src/err.rs lines 46–77):
classify every error as `transient` (retryable) or `permanent` (fatal),
wrapping the error itself. -/
def ProgressDownloadError.into_backoff_err :
    ProgressDownloadError → BackoffError ProgressDownloadError
  | .io k =>
    match k with
    | .wouldBlock | .interrupted | .resourceBusy
    | .connectionReset | .connectionAborted | .brokenPipe | .timedOut
    | .outOfMemory | .other =>
      .transient (.io k)
    | _ => .permanent (.io k)
  | .reqwest e =>
    if is_retry_error e then .transient (.reqwest e)
    else .permanent (.reqwest e)
  | .timeout => .transient .timeout
  | .semaphore => .transient .semaphore
  | .path p => .permanent (.path p)
  | .integrityHash ex ac => .permanent (.integrityHash ex ac)

/- Spec-side reformulations of the classification rules, written from the
spec's words to be compared with the classifier embedded from the code. -/

/-- Spec §4.1, transport errors: retryable iff timeout, connection failure,
malformed/incomplete request, a 5xx server status, one of the statuses
408, 425, 429, 449, or a decode/body-framing error. -/
def specTransportRetryable (e : ReqwestError) : Prop :=
  e.isTimeout = true ∨
  e.isConnect = true ∨
  e.isRequest = true ∨
  (∃ s, e.status = some s ∧ 500 ≤ s ∧ s ≤ 599) ∨
  e.status = some 408 ∨
  e.status = some 425 ∨
  e.status = some 429 ∨
  e.status = some 449 ∨
  e.isDecode = true ∨
  e.isBody = true

/-- Spec §4.1, filesystem errors: retryable iff would-block, interrupted,
resource busy, connection reset, connection aborted, broken pipe, timed
out, out of memory, or the unclassified/platform-opaque kind. -/
def specFilesystemRetryable (k : IoErrorKind) : Prop :=
  k = .wouldBlock ∨ k = .interrupted ∨ k = .resourceBusy ∨
  k = .connectionReset ∨ k = .connectionAborted ∨ k = .brokenPipe ∨
  k = .timedOut ∨ k = .outOfMemory ∨ k = .other

instance : DecidablePred specFilesystemRetryable := fun k => by
  unfold specFilesystemRetryable
  infer_instance

/- ### Data model: `src/item.rs` -/

/-- `hashery::Algorithm` as referenced by `Integrity::algorithm`. -/
inductive Algorithm where
  | md5
  | sha1
  | sha256
  | sha512
  | sha3_256
  | blake2b
  | blake2s
  | blake3
deriving DecidableEq, Repr

/-- `Integrity` from `src/item.rs`: an expected digest string tagged with
its algorithm (all feature-gated variants). -/
inductive Integrity where
  | MD5 (value : String)
  | SHA1 (value : String)
  | SHA256 (value : String)
  | SHA512 (value : String)
  | SHA3_256 (value : String)
  | Blake2b (value : String)
  | Blake2s (value : String)
  | Blake3 (value : String)
deriving DecidableEq, Repr

/-- `Integrity::value` (src/item.rs lines 24–43). -/
def Integrity.value : Integrity → String
  | .MD5 v | .SHA1 v | .SHA256 v | .SHA512 v
  | .SHA3_256 v | .Blake2b v | .Blake2s v | .Blake3 v => v

/-- `Integrity::algorithm` (src/item.rs lines 45–64). -/
def Integrity.algorithm : Integrity → Algorithm
  | .MD5 _ => .md5
  | .SHA1 _ => .sha1
  | .SHA256 _ => .sha256
  | .SHA512 _ => .sha512
  | .SHA3_256 _ => .sha3_256
  | .Blake2b _ => .blake2b
  | .Blake2s _ => .blake2s
  | .Blake3 _ => .blake3

/-- `DownloadItem` from `src/item.rs`: url, target path, optional
integrity spec. -/
structure DownloadItem (U P : Type) where
  url : U
  target : P
  integrity : Option Integrity

/- ### One download attempt: `src/task.rs` (`DownloadTaskRunner::download`) -/

/-- The local filesystem as one attempt sees it: the item's temp file and
its destination file, each either absent or holding a byte list (bytes as
`Nat`). -/
structure FsState where
  tmp : Option (List Nat)
  dest : Option (List Nat)
deriving DecidableEq, Repr

/-- `supports_resume` (src/task.rs line 60): the response status equals
`206 Partial Content` (`reqwest::StatusCode::PARTIAL_CONTENT`). -/
def supportsResume (status : Nat) : Bool :=
  status == 206

/-- `should_resume` (src/task.rs line 63): the server honored the resume
offset AND the temp file already held bytes. -/
def shouldResume (status downloadedSize : Nat) : Bool :=
  supportsResume status && decide (downloadedSize > 0)

/-- Temp-file content after
`OpenOptions::new().write(true).create(true).truncate(!should_resume)
.append(should_resume).open(temp_file)` (src/task.rs lines 65–71)
followed by streaming the whole response `body` through the `BufWriter`
and flushing (lines 82–105): append mode writes after the pre-existing
bytes, truncate mode discards them first. `prior` is the temp file before
the attempt (`none` if absent); its length is the resume offset sent in
the `Range` header. -/
def tmpAfterStream (prior : Option (List Nat)) (status : Nat)
    (body : List Nat) : List Nat :=
  if shouldResume status (prior.getD []).length then prior.getD [] ++ body
  else body

/-- Finalization tail of `DownloadTaskRunner::download`
(src/task.rs lines 137–150): ensure the destination's parent directory
exists, then `rename` the temp file onto the destination; if the rename
fails with `ErrorKind::CrossesDevices`, fall back to `copy` then
`remove_file`; any other rename failure propagates via `Err(e.into())`.
`fs1` is the filesystem after streaming (temp file = `newTmp`);
`mkdirErr`, `renameErr`, `copyErr`, `removeErr` are the outcomes of the
four fallible filesystem calls (`none` = success). -/
def finalizeTmp (fs1 : FsState) (newTmp : List Nat)
    (mkdirErr renameErr copyErr removeErr : Option IoErrorKind) :
    FsState × Except ProgressDownloadError Unit :=
  match mkdirErr with
  | some k => (fs1, .error (.io k))
  | none =>
    match renameErr with
    | none => ({ tmp := none, dest := some newTmp }, .ok ())
    | some k =>
      if k = .crossesDevices then
        match copyErr with
        | some ck => (fs1, .error (.io ck))
        | none =>
          match removeErr with
          | some rk => ({ fs1 with dest := some newTmp }, .error (.io rk))
          | none => ({ tmp := none, dest := some newTmp }, .ok ())
      else (fs1, .error (.io k))

/-- One attempt of `DownloadTaskRunner::download` (src/task.rs lines
55–155) for an attempt whose request and streaming loop complete, so the
response is summarized by its `status` and fully streamed `body`
(mid-stream transport, chunk-timeout and write errors leave the loop
through `?` and are classified by `into_backoff_err` — claims C6/C7).
`digest` is the hashery digest capability applied to the temp file's
bytes. Steps mirrored: probe the temp file's length (resume offset),
stream into the temp file opened truncated or appended
(`tmpAfterStream`), check integrity when the item carries a spec
(mismatch deletes the temp file and returns `IntegrityHash`), then
finalize (`finalizeTmp`). -/
def downloadAttempt (digest : Algorithm → List Nat → String)
    (integrity : Option Integrity) (fs : FsState) (status : Nat)
    (body : List Nat)
    (mkdirErr renameErr copyErr removeErr : Option IoErrorKind) :
    FsState × Except ProgressDownloadError Unit :=
  let newTmp := tmpAfterStream fs.tmp status body
  let fs1 : FsState := { fs with tmp := some newTmp }
  match integrity with
  | some integ =>
    let actual := digest integ.algorithm newTmp
    let expect := integ.value
    if actual ≠ expect then
      ({ fs1 with tmp := none }, .error (.integrityHash expect actual))
    else
      finalizeTmp fs1 newTmp mkdirErr renameErr copyErr removeErr
  | none => finalizeTmp fs1 newTmp mkdirErr renameErr copyErr removeErr

/- ### Backoff configuration and retry loop: `src/lib.rs` -/

/-- `backoff::ExponentialBackoff`, the fields `RobustDownloader::backoff`
sets (src/lib.rs lines 85–99). Durations in milliseconds as exact
rationals. -/
structure ExponentialBackoff where
  initialInterval : ℚ
  randomizationFactor : ℚ
  multiplier : ℚ
  maxInterval : ℚ
  maxElapsedTime : Option ℚ
deriving DecidableEq

/-- `RobustDownloader::backoff` (src/lib.rs lines 85–99): initial interval
500 ms, randomization factor 0.15, multiplier 1.5, max interval 5 s, max
elapsed time 120 s. -/
def backoffConfig : ExponentialBackoff where
  initialInterval := 500
  randomizationFactor := 15 / 100
  multiplier := 3 / 2
  maxInterval := 5000
  maxElapsedTime := some 120000

/-- `ExponentialBackoff::increment_current_interval`: multiply by the
multiplier, capped at the maximum interval. -/
def nextInterval (cfg : ExponentialBackoff) (cur : ℚ) : ℚ :=
  min (cur * cfg.multiplier) cfg.maxInterval

/-- The `backoff::future::retry` loop as driven by `download_with_retry`
(src/lib.rs lines 239–245): run the attempt; `Ok` returns immediately; a
`permanent` (fatal) classification returns the error immediately; a
`transient` (retryable) classification asks the backoff for the next
interval — `none` once the elapsed time exceeds `maxElapsedTime`, in
which case the last transient error is returned, otherwise sleep the
jittered interval (`rand k * cur`, with `rand k` the sampled factor in
`[1 - randomizationFactor, 1 + randomizationFactor]`) and retry with the
interval incremented. Oracles: `op k` is the result of attempt `k`
(`tasker.download()`), `dur k` its wall-clock duration, `rand k` the
jitter sample. `fuel` bounds the recursion depth; `none` means the bound
was reached before the loop returned. State: `k` attempt index, `cur`
current interval, `elapsed` wall-clock time since the loop started. -/
def retryAux (cfg : ExponentialBackoff)
    (op : Nat → Except ProgressDownloadError Unit) (rand dur : Nat → ℚ) :
    Nat → Nat → ℚ → ℚ → Option (Except ProgressDownloadError Unit)
  | 0, _, _, _ => none
  | fuel + 1, k, cur, elapsed =>
    let elapsed1 := elapsed + dur k
    match op k with
    | .ok () => some (.ok ())
    | .error e =>
      match e.into_backoff_err with
      | .permanent e1 => some (.error e1)
      | .transient e1 =>
        match cfg.maxElapsedTime with
        | some maxT =>
          if elapsed1 > maxT then some (.error e1)
          else
            retryAux cfg op rand dur fuel (k + 1) (nextInterval cfg cur)
              (elapsed1 + rand k * cur)
        | none =>
          retryAux cfg op rand dur fuel (k + 1) (nextInterval cfg cur)
            (elapsed1 + rand k * cur)

/-- The whole retry loop from its initial state: attempt 0, current
interval = the configured initial interval, zero elapsed time. -/
def retryDrive (cfg : ExponentialBackoff)
    (op : Nat → Except ProgressDownloadError Unit) (rand dur : Nat → ℚ)
    (fuel : Nat) : Option (Except ProgressDownloadError Unit) :=
  retryAux cfg op rand dur fuel 0 cfg.initialInterval 0

/- ### Destination path check: `src/lib.rs` `download_with_retry` -/

/-- One component of a path, as Rust's `Path::components` yields them. -/
inductive PathComp where
  | rootDir
  | curDir
  | parentDir
  | normal (s : String)
deriving DecidableEq, Repr

/-- `Path::file_name`: the last component when it is a normal file or
directory name, `none` when the path terminates in `..`, is a root or is
empty. -/
def fileName (p : List PathComp) : Option String :=
  match p.getLast? with
  | some (.normal s) => some s
  | _ => none

/-- Rendering of one component, for the `Path::to_string_lossy` text
carried by the `Path` error. -/
def PathComp.render : PathComp → String
  | .rootDir => "/"
  | .curDir => "."
  | .parentDir => ".."
  | .normal s => s

/-- `Path::to_string_lossy` on the component form of the path. -/
def renderPath (p : List PathComp) : String :=
  String.intercalate "/" (p.map PathComp.render)

/-- `RobustDownloader::download_with_retry` (src/lib.rs lines 206–248),
abstracted over everything after the path check: the target's file name
is extracted first; a path without a usable file-name component returns
the `Path` error at once — before the temp path is formed, the progress
bar is added, the tasker is built or any request is sent. `run` stands
for the backoff retry loop over `tasker.download()` given the extracted
file name; each side returns its result paired with the number of HTTP
requests issued. -/
def download_with_retry (target : List PathComp)
    (run : String → Except ProgressDownloadError Unit × Nat) :
    Except ProgressDownloadError Unit × Nat :=
  match fileName target with
  | none => (.error (.path (renderPath target)), 0)
  | some name => run name

/- ### Admission gate: `src/lib.rs` `download` -/

/-- `max_concurrent` builder default (src/lib.rs line 72). -/
def defaultMaxConcurrent : Nat := 2

/-- Where one item's future stands relative to the admission gate: not yet
holding a permit, past the gate (permit held, `download_with_retry`
running), or finished (permit dropped). -/
inductive ItemPhase where
  | notStarted
  | running
  | done
deriving DecidableEq, Repr

/-- Number of items currently past the admission gate. -/
def countRunning (l : List ItemPhase) : Nat :=
  l.countP (· == ItemPhase.running)

/-- Interleaving steps of the item futures in `RobustDownloader::download`
(src/lib.rs lines 151–161): each future is `let _permit =
sem.acquire().await?; self.download_with_retry(...)` — it passes the gate
only when the semaphore of capacity `N` has a free permit (fewer than `N`
holders), and the permit is dropped exactly when the retry loop
terminates, success or failure. -/
inductive GateStep (N : Nat) : List ItemPhase → List ItemPhase → Prop where
  | start (l : List ItemPhase) (i : Nat) (hlen : i < l.length)
      (hi : l[i] = ItemPhase.notStarted) (hcap : countRunning l < N) :
      GateStep N l (l.set i ItemPhase.running)
  | finish (l : List ItemPhase) (i : Nat) (hlen : i < l.length)
      (hi : l[i] = ItemPhase.running) :
      GateStep N l (l.set i ItemPhase.done)

/-- States reachable by the gated item futures, starting from a batch of
`M` items none of which has started. -/
inductive GateReach (N : Nat) : List ItemPhase → Prop where
  | init (M : Nat) : GateReach N (List.replicate M ItemPhase.notStarted)
  | step {s t : List ItemPhase} :
      GateReach N s → GateStep N s t → GateReach N t

/- ### Aggregation: `futures::future::try_join_all` in `download` -/

/-- The earliest failure among a list of item futures, each summarized by
(completion time, result): `try_join_all` polls all futures and resolves
to the error of the first future that completes with one (earliest time;
ties broken by list position, matching poll order). -/
def firstError {ε : Type} : List (Nat × Except ε Unit) → Option (Nat × ε)
  | [] => none
  | (t, r) :: rest =>
    let o := firstError rest
    match r with
    | .ok _ => o
    | .error e =>
      match o with
      | none => some (t, e)
      | some (t1, e1) => if t1 < t then some (t1, e1) else some (t, e)

/-- `futures::future::try_join_all` semantics over futures summarized by
(completion time, result): if no future fails, all run to completion and
the combinator returns `Ok`; otherwise it resolves with the earliest
error at its time `T` and drops the remaining futures — a future ran to
completion iff it had completed by `T`. Returns the overall result and
the per-future ran-to-completion flags. -/
def tryJoinAll {ε : Type} (l : List (Nat × Except ε Unit)) :
    Except ε Unit × List Bool :=
  match firstError l with
  | none => (.ok (), l.map fun _ => true)
  | some (T, e) => (.error e, l.map fun p => decide (p.1 ≤ T))

/-- Events an item future performs. -/
inductive DlEvent where
  | httpRequest
  | semAcquire
  | fsTouch
deriving DecidableEq, Repr

/-- One item future of `RobustDownloader::download`, summarized by its
completion time, its result, and the trace of events (HTTP requests,
semaphore acquisitions, filesystem operations) it performs when run to
completion. -/
structure ItemRun where
  time : Nat
  result : Except ProgressDownloadError Unit
  events : List DlEvent

/-- `RobustDownloader::download` (src/lib.rs lines 133–168): build the
shared client (pure construction, no I/O), create the semaphore, map each
item to its gated future, await `futures::future::try_join_all`, then
clear the progress display (terminal output, not filesystem). The
returned trace collects the events of the futures that ran to completion
(a future cancelled by `try_join_all`'s early return contributes a prefix
of its events; no theorem below inspects a cancelled future's events). -/
def downloadAll (items : List ItemRun) :
    Except ProgressDownloadError Unit × List DlEvent :=
  let joined := tryJoinAll (items.map fun it => (it.time, it.result))
  (joined.1,
    ((items.zip joined.2).filter fun p => p.2).flatMap fun p => p.1.events)

lemma is_retry_error_iff (e : ReqwestError) :
    is_retry_error e = true ↔ specTransportRetryable e := by
  obtain ⟨t, c, r, d, b, bl, st⟩ := e
  cases st with
  | none =>
    simp [is_retry_error, specTransportRetryable]
    tauto
  | some s =>
    have h59 : s < 600 ↔ s ≤ 599 := by omega
    simp [is_retry_error, specTransportRetryable, isServerError,
      Bool.or_eq_true, decide_eq_true_eq, h59]
    tauto

/- ### Theorems for claims C6 and C7 -/

/-- C6: for every transport-level error, `into_backoff_err` classifies it
`Retryable` (transient) if and only if the error indicates a timeout, a
connection failure, a malformed/incomplete request, a 5xx server status,
one of the statuses 408, 425, 429, 449, or a decode/body-framing error;
every other transport error (any other HTTP status, malformed-URL or
client-configuration error) is classified `Fatal` (permanent). -/
theorem c6_transport_classification (e : ReqwestError) :
    (ProgressDownloadError.into_backoff_err (.reqwest e) =
        .transient (.reqwest e) ↔ specTransportRetryable e) ∧
    (ProgressDownloadError.into_backoff_err (.reqwest e) =
        .permanent (.reqwest e) ↔ ¬ specTransportRetryable e) := by
  rw [← is_retry_error_iff]
  unfold ProgressDownloadError.into_backoff_err
  cases h : is_retry_error e <;> simp [h]

/-- Witness for C6: a pure connect error is classified transient, a plain
404 status error is classified permanent. -/
theorem c6_transport_classification_witness :
    ProgressDownloadError.into_backoff_err
        (.reqwest ⟨false, true, false, false, false, false, none⟩) =
      .transient (.reqwest ⟨false, true, false, false, false, false, none⟩) ∧
    ProgressDownloadError.into_backoff_err
        (.reqwest ⟨false, false, false, false, false, false, some 404⟩) =
      .permanent (.reqwest ⟨false, false, false, false, false, false, some 404⟩) :=
  ⟨(c6_transport_classification _).1.mpr (by simp [specTransportRetryable]),
   (c6_transport_classification _).2.mpr (by simp [specTransportRetryable])⟩

/-- C7: for every filesystem (I/O) error, `into_backoff_err` classifies it
`Retryable` (transient) if and only if the kind is would-block,
interrupted, resource busy, connection reset, connection aborted, broken
pipe, timed out, out of memory, or the unclassified/platform-opaque kind
(`Other`); every other kind is classified `Fatal` (permanent). -/
theorem c7_filesystem_classification (k : IoErrorKind) :
    (ProgressDownloadError.into_backoff_err (.io k) =
        .transient (.io k) ↔ specFilesystemRetryable k) ∧
    (ProgressDownloadError.into_backoff_err (.io k) =
        .permanent (.io k) ↔ ¬ specFilesystemRetryable k) := by
  cases k <;> exact (by decide)

/-- Witness for C7: a timed-out I/O error is transient, a
permission-denied I/O error is permanent. -/
theorem c7_filesystem_classification_witness :
    ProgressDownloadError.into_backoff_err (.io .timedOut) =
      .transient (.io .timedOut) ∧
    ProgressDownloadError.into_backoff_err (.io .permissionDenied) =
      .permanent (.io .permissionDenied) :=
  ⟨(c7_filesystem_classification .timedOut).1.mpr (by decide),
   (c7_filesystem_classification .permissionDenied).2.mpr (by decide)⟩

/-- C1: the executor opens the temp file in append mode if and only if the
response status is 206 and the resume offset (pre-existing temp length) is
positive; in every other case it opens the temp file truncated, discarding
prior partial bytes, so a 200 full-content response over a temp file
holding K > 0 bytes yields a file of exactly the full content length,
never K plus the full length. -/
theorem c1_open_mode (status off : Nat) (prior : Option (List Nat))
    (body : List Nat) :
    (shouldResume status off = true ↔ status = 206 ∧ 0 < off) ∧
    (shouldResume status (prior.getD []).length = false →
      tmpAfterStream prior status body = body) ∧
    (tmpAfterStream prior 200 body).length = body.length ∧
    (0 < (prior.getD []).length →
      (tmpAfterStream prior 200 body).length ≠
        (prior.getD []).length + body.length) := by
  have h200 : tmpAfterStream prior 200 body = body := by
    simp [tmpAfterStream, shouldResume, supportsResume]
  refine ⟨?_, ?_, by rw [h200], ?_⟩
  · simp [shouldResume, supportsResume]
  · intro h
    simp [tmpAfterStream, h]
  · intro hK
    rw [h200]
    omega

/-- Witness for C1: status 206 with offset 3 selects append mode, and a
200 response over a 2-byte temp file yields the 2-byte body, not 2 + 2
bytes. -/
theorem c1_open_mode_witness :
    shouldResume 206 3 = true ∧
    tmpAfterStream (some [9, 9]) 200 [1, 2] = [1, 2] ∧
    (tmpAfterStream (some [9, 9]) 200 [1, 2]).length ≠ 2 + 2 :=
  ⟨(c1_open_mode 206 3 (some [9, 9]) [1, 2]).1.mpr (by decide),
   (c1_open_mode 200 3 (some [9, 9]) [1, 2]).2.1 (by decide),
   (c1_open_mode 200 3 (some [9, 9]) [1, 2]).2.2.2 (by decide)⟩

/-- C3: when the item carries an integrity spec and the digest of the
completed temp file differs from the expected value (exact string
comparison), the attempt deletes the temp file, returns the
`IntegrityHash` error, leaves the destination untouched (never created:
the rename/copy step is not reached), and the error is classified
permanent — never retried. -/
theorem c3_integrity_mismatch (digest : Algorithm → List Nat → String)
    (integ : Integrity) (fs : FsState) (status : Nat) (body : List Nat)
    (mkdirErr renameErr copyErr removeErr : Option IoErrorKind)
    (hne : digest integ.algorithm (tmpAfterStream fs.tmp status body) ≠
      integ.value) :
    downloadAttempt digest (some integ) fs status body
        mkdirErr renameErr copyErr removeErr =
      ({ tmp := none, dest := fs.dest },
        .error (.integrityHash integ.value
          (digest integ.algorithm (tmpAfterStream fs.tmp status body)))) ∧
    ProgressDownloadError.into_backoff_err
        (.integrityHash integ.value
          (digest integ.algorithm (tmpAfterStream fs.tmp status body))) =
      .permanent (.integrityHash integ.value
        (digest integ.algorithm (tmpAfterStream fs.tmp status body))) := by
  constructor
  · simp [downloadAttempt, hne]
  · rfl

/-- Witness for C3: a constant digest capability returning a string other
than the expected one makes the attempt delete the temp file and fail
with the IntegrityHash error, leaving the (absent) destination absent. -/
theorem c3_integrity_mismatch_witness :
    downloadAttempt (fun _ _ => "deadbeef") (some (.SHA256 "expected"))
        ⟨none, none⟩ 200 [1, 2] none none none none =
      ({ tmp := none, dest := none },
        .error (.integrityHash "expected" "deadbeef")) :=
  (c3_integrity_mismatch (fun _ _ => "deadbeef") (.SHA256 "expected")
    ⟨none, none⟩ 200 [1, 2] none none none none (by decide)).1

/-- C9 counterexample: the claim says any non-cross-device rename failure
is fatal. In the code the rename error propagates as
`ProgressDownloadError::Io` (src/task.rs line 148) and is then classified
by `into_backoff_err` (src/err.rs lines 48–63), which marks kinds such as
`ResourceBusy` transient — retried, not fatal: a rename failing with
EBUSY is returned as-is but classified retryable. -/
theorem c9_counterexample :
    (downloadAttempt (fun _ _ => "x") none ⟨some [5], none⟩ 206 [7]
        none (some .resourceBusy) none none =
      ({ tmp := some [5, 7], dest := none },
        .error (.io .resourceBusy))) ∧
    ProgressDownloadError.into_backoff_err (.io .resourceBusy) =
      .transient (.io .resourceBusy) ∧
    ProgressDownloadError.into_backoff_err (.io .resourceBusy) ≠
      .permanent (.io .resourceBusy) := by
  refine ⟨rfl, rfl, by decide⟩

/-- C9 (amended): finalization promotes the temp file to the destination
via rename; exactly when the rename fails with `CrossesDevices` the
copy-then-delete fallback runs, leaving the destination bytes equal to
the temp file's bytes and the temp file gone; any other rename failure is
returned as-is with no fallback (destination unchanged), and is then
classified by the ordinary I/O classification — retryable exactly for the
transient kinds (would-block, interrupted, resource busy, connection
reset/aborted, broken pipe, timed out, out of memory, other), fatal for
the rest. Hypothesis: the integrity check (if any) passes, so the attempt
reaches finalization. -/
theorem c9_finalization (digest : Algorithm → List Nat → String)
    (integrity : Option Integrity) (fs : FsState) (status : Nat)
    (body : List Nat)
    (hok : ∀ integ, integrity = some integ →
      digest integ.algorithm (tmpAfterStream fs.tmp status body) =
        integ.value) :
    (downloadAttempt digest integrity fs status body none none none none =
      ({ tmp := none, dest := some (tmpAfterStream fs.tmp status body) },
        .ok ())) ∧
    (downloadAttempt digest integrity fs status body
        none (some .crossesDevices) none none =
      ({ tmp := none, dest := some (tmpAfterStream fs.tmp status body) },
        .ok ())) ∧
    (∀ k, k ≠ IoErrorKind.crossesDevices →
      downloadAttempt digest integrity fs status body
          none (some k) none none =
        ({ fs with tmp := some (tmpAfterStream fs.tmp status body) },
          .error (.io k)) ∧
      (ProgressDownloadError.into_backoff_err (.io k) =
          .transient (.io k) ↔ specFilesystemRetryable k)) := by
  cases integrity with
  | none =>
    refine ⟨by simp [downloadAttempt, finalizeTmp], ?_, ?_⟩
    · simp [downloadAttempt, finalizeTmp]
    · intro k hk
      refine ⟨?_, ?_⟩
      · simp [downloadAttempt, finalizeTmp, hk]
      · cases k <;> decide
  | some integ =>
    have hv := hok integ rfl
    refine ⟨?_, ?_, ?_⟩
    · simp [downloadAttempt, hv, finalizeTmp]
    · simp [downloadAttempt, hv, finalizeTmp]
    · intro k hk
      refine ⟨?_, ?_⟩
      · simp [downloadAttempt, hv, finalizeTmp, hk]
      · cases k <;> decide

/-- Witness for C9 (amended): with no integrity spec, a 206 resume attempt
over a 1-byte temp file finalizes the concatenated bytes to the
destination by rename and by the cross-device fallback; a
permission-denied rename failure is surfaced as-is with the temp file
still in place, and a resource-busy rename failure is classified
transient (retried). -/
theorem c9_finalization_witness :
    (downloadAttempt (fun _ _ => "x") none ⟨some [5], none⟩ 206 [7]
        none none none none =
      ({ tmp := none, dest := some [5, 7] }, .ok ())) ∧
    (downloadAttempt (fun _ _ => "x") none ⟨some [5], none⟩ 206 [7]
        none (some .crossesDevices) none none =
      ({ tmp := none, dest := some [5, 7] }, .ok ())) ∧
    (downloadAttempt (fun _ _ => "x") none ⟨some [5], none⟩ 206 [7]
        none (some .permissionDenied) none none =
      ({ tmp := some [5, 7], dest := none },
        .error (.io .permissionDenied))) ∧
    ProgressDownloadError.into_backoff_err (.io .resourceBusy) =
      .transient (.io .resourceBusy) := by
  have h := c9_finalization (fun _ _ => "x") none ⟨some [5], none⟩ 206 [7]
    (fun integ hi => nomatch hi)
  refine ⟨?_, ?_, ?_, ?_⟩
  · have h1 := h.1
    simpa [tmpAfterStream, shouldResume, supportsResume] using h1
  · have h2 := h.2.1
    simpa [tmpAfterStream, shouldResume, supportsResume] using h2
  · have h3 := (h.2.2 .permissionDenied (by decide)).1
    simpa [tmpAfterStream, shouldResume, supportsResume] using h3
  · exact (h.2.2 .resourceBusy (by decide)).2.mpr (by decide)

lemma countRunning_set (l : List ItemPhase) (i : Nat) (a : ItemPhase)
    (h : i < l.length) :
    countRunning (l.set i a) =
      countRunning l - (if l[i] == ItemPhase.running then 1 else 0) +
        (if a == ItemPhase.running then 1 else 0) := by
  simpa [countRunning] using
    List.countP_set (· == ItemPhase.running) l i a h

lemma firstError_not_mem_of_none {ε : Type} :
    ∀ {l : List (Nat × Except ε Unit)}, firstError l = none →
      ∀ t1 e1, (t1, Except.error e1) ∈ l → False := by
  intro l
  induction l with
  | nil => intro _ t1 e1 hmem; simp at hmem
  | cons hd tl ih =>
    intro h t1 e1 hmem
    obtain ⟨t, r⟩ := hd
    cases r with
    | ok u =>
      cases u
      simp only [firstError] at h
      rcases List.mem_cons.mp hmem with heq | hmem1
      · simp at heq
      · exact ih h t1 e1 hmem1
    | error e0 =>
      cases ho : firstError tl with
      | none => simp [firstError, ho] at h
      | some p =>
        simp only [firstError, ho] at h
        split at h <;> simp at h

lemma firstError_mem {ε : Type} :
    ∀ {l : List (Nat × Except ε Unit)} {T : Nat} {e : ε},
      firstError l = some (T, e) → (T, Except.error e) ∈ l := by
  intro l
  induction l with
  | nil => intro T e h; simp [firstError] at h
  | cons hd tl ih =>
    intro T e h
    obtain ⟨t, r⟩ := hd
    cases r with
    | ok u =>
      cases u
      simp only [firstError] at h
      exact List.mem_cons_of_mem _ (ih h)
    | error e0 =>
      cases ho : firstError tl with
      | none =>
        simp [firstError, ho] at h
        obtain ⟨rfl, rfl⟩ := h
        exact List.mem_cons_self _ _
      | some p =>
        obtain ⟨t1, e1⟩ := p
        simp only [firstError, ho] at h
        by_cases hlt : t1 < t
        · rw [if_pos hlt] at h
          simp at h
          obtain ⟨rfl, rfl⟩ := h
          exact List.mem_cons_of_mem _ (ih ho)
        · rw [if_neg hlt] at h
          simp at h
          obtain ⟨rfl, rfl⟩ := h
          exact List.mem_cons_self _ _

lemma firstError_min {ε : Type} :
    ∀ {l : List (Nat × Except ε Unit)} {T : Nat} {e : ε},
      firstError l = some (T, e) →
      ∀ t1 e1, (t1, Except.error e1) ∈ l → T ≤ t1 := by
  intro l
  induction l with
  | nil => intro T e h; simp [firstError] at h
  | cons hd tl ih =>
    intro T e h t1 e1 hmem
    obtain ⟨t, r⟩ := hd
    cases r with
    | ok u =>
      cases u
      simp only [firstError] at h
      rcases List.mem_cons.mp hmem with heq | hmem1
      · simp at heq
      · exact ih h t1 e1 hmem1
    | error e0 =>
      cases ho : firstError tl with
      | none =>
        simp [firstError, ho] at h
        obtain ⟨rfl, rfl⟩ := h
        rcases List.mem_cons.mp hmem with heq | hmem1
        · simp at heq
          omega
        · exact absurd hmem1 (fun hm => firstError_not_mem_of_none ho t1 e1 hm)
      | some p =>
        obtain ⟨t2, e2⟩ := p
        simp only [firstError, ho] at h
        by_cases hlt : t2 < t
        · rw [if_pos hlt] at h
          simp at h
          obtain ⟨rfl, rfl⟩ := h
          rcases List.mem_cons.mp hmem with heq | hmem1
          · simp at heq
            omega
          · exact ih ho t1 e1 hmem1
        · rw [if_neg hlt] at h
          simp at h
          obtain ⟨rfl, rfl⟩ := h
          rcases List.mem_cons.mp hmem with heq | hmem1
          · simp at heq
            omega
          · have := ih ho t1 e1 hmem1
            omega

/-- C2: the admission gate — one slot of the counting semaphore (capacity
N, default `max_concurrent = 2`) is acquired before an item's retry loop
starts and released when it terminates, so in every reachable
interleaving of the item futures at most N items are simultaneously past
the gate. -/
theorem c2_admission_gate :
    defaultMaxConcurrent = 2 ∧
    ∀ (N : Nat) (s : List ItemPhase), GateReach N s → countRunning s ≤ N := by
  refine ⟨rfl, ?_⟩
  intro N s h
  induction h with
  | init M =>
    simp [countRunning, List.countP_replicate]
  | step hr hst ih =>
    cases hst with
    | start i hlen hi hcap =>
      have hset := countRunning_set _ i .running hlen
      rw [hi] at hset
      simp at hset
      omega
    | finish i hlen hi =>
      have hset := countRunning_set _ i .done hlen
      rw [hi] at hset
      simp at hset
      omega

/-- Witness for C2: with capacity 2 and a batch of 3 items, the state in
which the first two items are past the gate is reachable, and the
invariant bounds its running count by 2. -/
theorem c2_admission_gate_witness :
    countRunning
      [ItemPhase.running, ItemPhase.running, ItemPhase.notStarted] ≤ 2 := by
  have r1 : GateReach 2 (List.replicate 3 ItemPhase.notStarted) :=
    GateReach.init 3
  have r2 : GateReach 2
      [ItemPhase.running, ItemPhase.notStarted, ItemPhase.notStarted] :=
    r1.step (GateStep.start _ 0 (by decide) (by decide) (by decide))
  have r3 : GateReach 2
      [ItemPhase.running, ItemPhase.running, ItemPhase.notStarted] :=
    r2.step (GateStep.start _ 1 (by decide) (by decide) (by decide))
  exact c2_admission_gate.2 2 _ r3

/-- C4 counterexample: the claim says sibling items that had not yet
finished when a fatal failure occurs are still allowed to run to
completion. In the code, `futures::future::try_join_all` resolves at the
first error and drops the remaining futures: with the first item failing
fatally at time 1 and the second item due to succeed at time 2, the call
aborts with the error and the second item's flag is `false` — it was
cancelled, not run to completion. -/
theorem c4_counterexample :
    tryJoinAll [(1, Except.error (ProgressDownloadError.path "bad")),
                (2, Except.ok ())] =
      (.error (.path "bad"), [true, false]) := rfl

/-- C4 (amended): the earliest failure (fatal or retry-exhausted) from any
item aborts the overall call with that error; sibling items that had not
yet completed at that instant are dropped (cancelled), not run to
completion; if no item fails, every item runs to completion and the call
returns success. -/
theorem c4_first_failure_aborts
    (l : List (Nat × Except ProgressDownloadError Unit)) :
    (∀ T e, firstError l = some (T, e) →
      (tryJoinAll l).1 = .error e ∧
      (T, Except.error e) ∈ l ∧
      (∀ t1 e1, (t1, Except.error e1) ∈ l → T ≤ t1) ∧
      (∀ (i : Nat) t1 r, l[i]? = some (t1, r) → T < t1 →
        (tryJoinAll l).2[i]? = some false) ∧
      (∀ (i : Nat) t1 r, l[i]? = some (t1, r) → t1 ≤ T →
        (tryJoinAll l).2[i]? = some true)) ∧
    (firstError l = none →
      tryJoinAll l = (.ok (), l.map fun _ => true)) := by
  constructor
  · intro T e h
    refine ⟨?_, firstError_mem h, firstError_min h, ?_, ?_⟩
    · simp [tryJoinAll, h]
    · intro i t1 r hi hT
      simp only [tryJoinAll, h, List.getElem?_map, hi, Option.map_some]
      simp
      omega
    · intro i t1 r hi hT
      simp only [tryJoinAll, h, List.getElem?_map, hi, Option.map_some]
      simp [hT]
  · intro h
    simp [tryJoinAll, h]

/-- Witness for C4 (amended): three items failing/succeeding at times
5, 3, 9 — the call aborts with the time-3 error, the time-9 item is
cancelled (flag false) and the time-5 failure is no earlier than the
surfaced one. -/
theorem c4_first_failure_aborts_witness :
    (tryJoinAll [(5, Except.error ProgressDownloadError.timeout),
                 (3, Except.error (ProgressDownloadError.path "p")),
                 (9, Except.ok ())]).1 =
      .error (.path "p") ∧
    (tryJoinAll [(5, Except.error ProgressDownloadError.timeout),
                 (3, Except.error (ProgressDownloadError.path "p")),
                 (9, Except.ok ())]).2[2]? = some false ∧
    (3 : Nat) ≤ 5 := by
  have h := (c4_first_failure_aborts
    [(5, Except.error ProgressDownloadError.timeout),
     (3, Except.error (ProgressDownloadError.path "p")),
     (9, Except.ok ())]).1 3 (.path "p") rfl
  exact ⟨h.1, h.2.2.2.1 2 9 (Except.ok ()) rfl (by omega),
    h.2.2.1 5 ProgressDownloadError.timeout (by simp)⟩

/-- C5: the retry loop uses exactly the backoff policy of
`RobustDownloader::backoff` — initial interval 500 ms, randomization
factor 0.15, multiplier 1.5, interval capped at 5 s, elapsed-time budget
120 s — and behaves as: a fatal (permanent) classification stops at once
with the fatal error; success returns at once; a retryable (transient)
classification returns the last retryable error once the elapsed time
exceeds the 120 s budget, and otherwise sleeps the jittered interval
`rand k * cur` and retries with the interval multiplied by 1.5 and capped
at 5 s. -/
theorem c5_backoff_policy :
    (backoffConfig.initialInterval = 500 ∧
     backoffConfig.randomizationFactor = 15 / 100 ∧
     backoffConfig.multiplier = 3 / 2 ∧
     backoffConfig.maxInterval = 5000 ∧
     backoffConfig.maxElapsedTime = some 120000) ∧
    (∀ op rand dur fuel k cur elapsed e, op k = .error e →
      ProgressDownloadError.into_backoff_err e = .permanent e →
      retryAux backoffConfig op rand dur (fuel + 1) k cur elapsed =
        some (.error e)) ∧
    (∀ op rand dur fuel k cur elapsed, op k = .ok () →
      retryAux backoffConfig op rand dur (fuel + 1) k cur elapsed =
        some (.ok ())) ∧
    (∀ op rand dur fuel k cur elapsed e, op k = .error e →
      ProgressDownloadError.into_backoff_err e = .transient e →
      elapsed + dur k > 120000 →
      retryAux backoffConfig op rand dur (fuel + 1) k cur elapsed =
        some (.error e)) ∧
    (∀ op rand dur fuel k cur elapsed e, op k = .error e →
      ProgressDownloadError.into_backoff_err e = .transient e →
      elapsed + dur k ≤ 120000 →
      retryAux backoffConfig op rand dur (fuel + 1) k cur elapsed =
        retryAux backoffConfig op rand dur fuel (k + 1)
          (min (cur * (3 / 2)) 5000) (elapsed + dur k + rand k * cur)) := by
  refine ⟨⟨rfl, rfl, rfl, rfl, rfl⟩, ?_, ?_, ?_, ?_⟩
  · intro op rand dur fuel k cur elapsed e hop hcls
    simp [retryAux, hop, hcls]
  · intro op rand dur fuel k cur elapsed hop
    simp [retryAux, hop]
  · intro op rand dur fuel k cur elapsed e hop hcls hgt
    simp only [retryAux, hop, hcls, backoffConfig]
    rw [if_pos hgt]
  · intro op rand dur fuel k cur elapsed e hop hcls hle
    simp only [retryAux, hop, hcls, backoffConfig]
    rw [if_neg (by exact not_lt.mpr hle)]
    simp [nextInterval, backoffConfig]

/-- Witness for C5: a permanent path error stops after one attempt; a
constant success returns at once; a transient timeout whose first attempt
already consumed 130 s of the budget returns the timeout; a transient
timeout within budget recurses with the incremented interval and the
jittered sleep added to the elapsed time. -/
theorem c5_backoff_policy_witness :
    retryAux backoffConfig (fun _ => .error (.path "x")) (fun _ => 1)
        (fun _ => 0) 1 0 500 0 = some (.error (.path "x")) ∧
    retryAux backoffConfig (fun _ => .ok ()) (fun _ => 1)
        (fun _ => 0) 1 0 500 0 = some (.ok ()) ∧
    retryAux backoffConfig (fun _ => .error .timeout) (fun _ => 1)
        (fun _ => 130000) 1 0 500 0 = some (.error .timeout) ∧
    retryAux backoffConfig (fun _ => .error .timeout) (fun _ => 1)
        (fun _ => 0) 2 0 500 0 =
      retryAux backoffConfig (fun _ => .error .timeout) (fun _ => 1)
        (fun _ => 0) 1 1 (min (500 * (3 / 2)) 5000) (0 + 0 + 1 * 500) :=
  ⟨c5_backoff_policy.2.1 _ _ _ 0 0 500 0 (.path "x") rfl rfl,
   c5_backoff_policy.2.2.1 _ _ _ 0 0 500 0 rfl,
   c5_backoff_policy.2.2.2.1 _ _ _ 0 0 500 0 .timeout rfl rfl (by norm_num),
   c5_backoff_policy.2.2.2.2 _ _ _ 1 0 500 0 .timeout rfl rfl (by norm_num)⟩

/-- C8: an item whose destination path lacks a usable file-name component
fails with the Fatal `Path` error before any network activity — zero
requests issued, the retry loop never entered — and the `Path` error is
classified permanent, so it would never be retried. -/
theorem c8_invalid_path (target : List PathComp)
    (run : String → Except ProgressDownloadError Unit × Nat)
    (h : fileName target = none) :
    download_with_retry target run =
      (.error (.path (renderPath target)), 0) ∧
    ProgressDownloadError.into_backoff_err (.path (renderPath target)) =
      .permanent (.path (renderPath target)) := by
  constructor
  · simp [download_with_retry, h]
  · rfl

/-- Witness for C8: the path `a/..` has no file name; the call fails with
the Path error and issues zero requests no matter what the retry loop
would have done. -/
theorem c8_invalid_path_witness :
    download_with_retry [PathComp.normal "a", PathComp.parentDir]
        (fun _ => (.ok (), 7)) =
      (.error (.path (renderPath [PathComp.normal "a", PathComp.parentDir])),
        0) :=
  (c8_invalid_path [PathComp.normal "a", PathComp.parentDir]
    (fun _ => (.ok (), 7)) rfl).1

/-- C10: calling the entry point with an empty list of download items
returns success with an empty event trace — no HTTP request, no semaphore
acquisition, no filesystem operation. -/
theorem c10_empty_batch : downloadAll [] = (.ok (), []) := rfl
